import Mathlib

/-!
Verification development for the smalter-autodoc document pipeline.

This file gives a shallow embedding, in Lean 4, of the core logic of the
pipeline: the amount normalizer and SIRET Luhn validator of
`core/extractors/regex_extractor.py`, the keyword type-consistency check of
`core/document_type_validator.py`, the score combination of
`core/image_quality_checker.py`, the LLM response handling of
`core/extractors/llm_extractor.py`, the regex/LLM merge policy of
`core/extractors/hybrid_extractor.py`, the agent `process` workflow of
`core/agents/base_agent.py`, and the gate sequence of `api/main.py`.

Modelling conventions:
* Python dicts are association lists (`Dict`) with first-match lookup and
  in-place update, preserving insertion order, mirroring Python dict
  semantics on duplicate-free key lists.
* Python `None`, strings, numbers, lists and nested objects are the
  inductive `Value`; numeric values are exact rationals (the Python code
  compares and stores floats, whose decimal literals here are taken at
  face value).
* External collaborators (the OCR engine, pdf rasterizer, HTTP backend,
  `json.loads`) are inputs of the embedded functions: each call site gets
  the collaborator's outcome as an explicit argument, with exceptions
  modelled as `Except`/`Option` outcomes.
* Character-level Python string primitives (`strip`, `lower`, `in`) are
  modelled over ASCII plus the accented letters appearing in the code's
  keyword tables.
-/

namespace Smalter

/-- A Python/JSON value: `None`, string, number, list, or object. -/
inductive Value where
  | null : Value
  | str : String → Value
  | num : ℚ → Value
  | vlist : List Value → Value
  | vdict : List (String × Value) → Value

/-- A Python dict with string keys, as an insertion-ordered association list. -/
abbrev Dict := List (String × Value)

/-- `d.get(k)` with default `None` is `pyGet d k = none`. -/
def pyGet (d : Dict) (k : String) : Option Value :=
  match d with
  | [] => none
  | kv :: rest => if kv.1 = k then some kv.2 else pyGet rest k

/-- `d[k] = v`: update the (unique) existing entry in place, else append at
the end — Python dict assignment order on duplicate-free key lists. -/
def pySet (d : Dict) (k : String) (v : Value) : Dict :=
  match d with
  | [] => [(k, v)]
  | kv :: rest => if kv.1 = k then (k, v) :: rest else kv :: pySet rest k v

/-- `d.keys()` in insertion order. -/
def pyKeys (d : Dict) : List String := d.map (fun kv => kv.1)

/-- The Python test `v is None or v == [] or v == {}` (used by the hybrid
merger both to skip an empty regex field and to recompute missing fields). -/
def Value.isEmptyColl : Value → Bool
  | Value.null => true
  | Value.vlist [] => true
  | Value.vdict [] => true
  | _ => false

/-- The Python test `v is None or v == "" or v == [] or v == {}` (used by the
LLM response cleaner and by the agent's required/optional field checks). -/
def Value.isFalsyField : Value → Bool
  | Value.null => true
  | Value.str "" => true
  | Value.vlist [] => true
  | Value.vdict [] => true
  | _ => false

/-- `data.get(k)` is missing-like when absent (`None`) or an empty collection. -/
def missingVal (o : Option Value) : Bool :=
  match o with
  | none => true
  | some v => v.isEmptyColl

/-- `data.get(k)` is falsy when absent (`None`), `""`, `[]` or an empty object. -/
def falsyVal (o : Option Value) : Bool :=
  match o with
  | none => true
  | some v => v.isFalsyField

/-- ASCII whitespace recognized by Python's `strip` and `\s` (ASCII fragment). -/
def isPySpace (c : Char) : Bool :=
  c = ' ' || c = '\t' || c = '\n' || c = '\r' || c = Char.ofNat 11 || c = Char.ofNat 12

/-- Python `str.strip()` on a character list. -/
def pyStripList (l : List Char) : List Char :=
  ((l.dropWhile isPySpace).reverse.dropWhile isPySpace).reverse

/-- Python `str.strip()`. -/
def pyStrip (s : String) : String := String.mk (pyStripList s.data)

/-- Python `str.lower()` on ASCII plus the accented capital appearing in the
keyword tables. -/
def pyLowerChar (c : Char) : Char := if c = 'É' then 'é' else c.toLower

/-- Python `str.lower()` (ASCII model). -/
def pyLower (s : String) : String := String.mk (s.data.map pyLowerChar)

/-- Python `str.upper()` (ASCII model). -/
def pyUpper (s : String) : String := String.mk (s.data.map Char.toUpper)

/-- Python `s.startswith("_")`. -/
def startsUnderscore (s : String) : Bool :=
  match s.data with
  | [] => false
  | c :: _ => c = '_'

/-- Python substring membership `needle in hay` on character lists. -/
def isSubstr (needle hay : List Char) : Bool :=
  hay.tails.any (fun t => needle.isPrefixOf t)

/-- Python substring membership `needle in hay` on strings. -/
def strIn (needle hay : String) : Bool := isSubstr needle.data hay.data

/-- The apostrophe character, written by code point. -/
def sq : String := String.mk [Char.ofNat 39]

/-- The apostrophe as a character. -/
def sqChar : Char := Char.ofNat 39

/-! ### `RegexExtractor._parse_amount` (regex_extractor.py lines 506-560)

The Python function strips the input, fixes common OCR glyph confusions,
removes currency tokens, whitespace and Swiss apostrophes, classifies the
remaining string as European / Anglo / plain decimal format, and finally
calls `float(...)`, returning `None` on `ValueError`. The chained
`str.replace` calls commute with a single per-character map because no
replacement target is another replacement's source. -/

/-- OCR glyph corrections `O→0, o→0, l→1, I→1, S→5, Z→2`. -/
def ocrFixChar (c : Char) : Char :=
  if c = 'O' || c = 'o' then '0'
  else if c = 'l' || c = 'I' then '1'
  else if c = 'S' then '5'
  else if c = 'Z' then '2'
  else c

/-- Left-to-right removal of the currency alternatives
`[€$£]|CHF|EUR|USD|FCFA|XOF|GBP` (the behaviour of `re.sub` with this
pattern: at each position the first matching alternative is deleted,
otherwise the character is kept). The alternatives start with pairwise
distinct characters, so the scan is deterministic. -/
def stripCurrency : List Char → List Char
  | [] => []
  | '€' :: r => stripCurrency r
  | '$' :: r => stripCurrency r
  | '£' :: r => stripCurrency r
  | 'C' :: 'H' :: 'F' :: r => stripCurrency r
  | 'E' :: 'U' :: 'R' :: r => stripCurrency r
  | 'U' :: 'S' :: 'D' :: r => stripCurrency r
  | 'F' :: 'C' :: 'F' :: 'A' :: r => stripCurrency r
  | 'X' :: 'O' :: 'F' :: r => stripCurrency r
  | 'G' :: 'B' :: 'P' :: r => stripCurrency r
  | c :: r => c :: stripCurrency r

/-- Optional trailing decimal part `(sep \d{1,2})?$` of the two
separator-format regexes. -/
def decPart (decSep : Char) : List Char → Bool
  | [] => true
  | c :: rest =>
      c = decSep && (rest.length = 1 || rest.length = 2) && rest.all Char.isDigit

/-- One-or-more thousands groups `(sep \d{3})+` followed by the optional
decimal part and end of string. A digit directly after a group makes the
fully-anchored regex fail (the group widths are rigid, so backtracking
cannot recover). -/
def groupsPlus (thSep decSep : Char) : List Char → Bool
  | a :: b :: c :: d :: rest =>
      a = thSep && b.isDigit && c.isDigit && d.isDigit &&
      (match rest with
       | [] => true
       | e :: _ =>
           if e.isDigit then false
           else groupsPlus thSep decSep rest || decPart decSep rest)
  | _ => false

/-- Optional leading minus of the separator-format regexes. -/
def dropMinus : List Char → List Char
  | '-' :: r => r
  | l => l

/-- Full match of `^-?\d{1,3}(thSep\d{3})+(decSep\d{1,2})?$`. The leading
digit run must have length 1-3: a longer run cannot match because the
character after `\d{1,3}` must be the rigid separator. -/
def sepFormat (thSep decSep : Char) (l : List Char) : Bool :=
  let l1 := dropMinus l
  let ds := l1.takeWhile Char.isDigit
  let rest := l1.dropWhile Char.isDigit
  decide (1 ≤ ds.length) && decide (ds.length ≤ 3) && groupsPlus thSep decSep rest

/-- Numeric value of a digit list. -/
def digitsVal (l : List Char) : ℕ := l.foldl (fun a c => a * 10 + (c.toNat - 48)) 0

/-- Optional sign of a Python float literal. -/
def splitSign : List Char → Bool × List Char
  | '-' :: r => (true, r)
  | '+' :: r => (false, r)
  | l => (false, l)

/-- Split a float literal at the first exponent marker `e`/`E`. -/
def splitAtExp : List Char → List Char × Option (List Char)
  | [] => ([], none)
  | c :: r =>
      if c = 'e' || c = 'E' then ([], some r)
      else
        let p := splitAtExp r
        (c :: p.1, p.2)

/-- Mantissa `\d+(\.\d*)? | \.\d+` of a float literal, as a pair
`(n, k)` denoting the value `n / 10 ^ k`. -/
def parseMantissa (l : List Char) : Option (ℕ × ℕ) :=
  let ip := l.takeWhile Char.isDigit
  let rest := l.dropWhile Char.isDigit
  match rest with
  | [] => if ip.length = 0 then none else some (digitsVal ip, 0)
  | '.' :: fp =>
      if fp.all Char.isDigit && (ip.length ≠ 0 || fp.length ≠ 0) then
        some (digitsVal ip * 10 ^ fp.length + digitsVal fp, fp.length)
      else none
  | _ => none

/-- Exponent `[+-]?\d+` of a float literal. -/
def parseExp (l : List Char) : Option ℤ :=
  let p := splitSign l
  if p.2.length ≠ 0 && p.2.all Char.isDigit then
    some (if p.1 then -(digitsVal p.2 : ℤ) else (digitsVal p.2 : ℤ))
  else none

/-- Python `float(s)` on the decimal-literal grammar
`[+-]? (\d+(\.\d*)? | \.\d+) ([eE][+-]?\d+)?`, as an exact rational
(`inf`/`nan`/underscore literals are outside the modelled domain; none can
reach this point from the pipeline's numeric strings). -/
def pyFloat (l : List Char) : Option ℚ :=
  let p := splitSign l
  let q := splitAtExp p.2
  match parseMantissa q.1 with
  | none => none
  | some nk =>
      let build : ℤ → Option ℚ := fun e =>
        let shift : ℤ := e - (nk.2 : ℤ)
        let num : ℕ := nk.1 * 10 ^ shift.toNat
        let den : ℕ := 10 ^ (-shift).toNat
        some (mkRat (if p.1 then -(num : ℤ) else (num : ℤ)) den)
      match q.2 with
      | none => build 0
      | some el =>
          match parseExp el with
          | none => none
          | some e => build e

/-- `RegexExtractor._parse_amount`: OCR-glyph correction, currency and
whitespace stripping, locale-format classification, final numeric parse.
Returns `none` exactly where the Python function returns `None` (empty or
blank input, or a final `ValueError`); the embedding is a total function,
matching the code's catch-all around `float`. -/
def parseAmount (s : String) : Option ℚ :=
  if pyStrip s = "" then none
  else
    let c0 := (pyStrip s).data.map ocrFixChar
    let c1 := stripCurrency c0
    let c2 := c1.filter (fun c => !isPySpace c)
    let c3 := c2.filter (fun c => c ≠ sqChar)
    let c4 :=
      if sepFormat '.' ',' c3 then
        (c3.filter (fun c => c ≠ '.')).map (fun c => if c = ',' then '.' else c)
      else if sepFormat ',' '.' c3 then
        c3.filter (fun c => c ≠ ',')
      else
        c3.map (fun c => if c = ',' then '.' else c)
    pyFloat c4

/-! ### `RegexExtractor._validate_siret_luhn` (regex_extractor.py lines 475-500) -/

/-- Luhn adjustment: digits at even 0-based positions are doubled, and 9 is
subtracted when the double exceeds 9. -/
def luhnAdjust (i : ℕ) (d : ℕ) : ℕ :=
  if i % 2 = 0 then
    let x := d * 2
    if x > 9 then x - 9 else x
  else d

/-- `RegexExtractor._validate_siret_luhn`: the adjusted digit sum must be a
multiple of 10. The caller only passes 14-character all-digit strings. -/
def validateSiretLuhn (s : String) : Bool :=
  ((s.data.enum.map (fun p => luhnAdjust p.1 (p.2.toNat - 48))).sum) % 10 = 0

/-! ### `DocumentTypeValidator` (document_type_validator.py)

Keyword-based cross-check between a declared document type and the
extracted text. Confidences in the source are the whole-number floats
`0.0`, `50.0`, `min(100.0, n * 50.0)`; they are modelled as naturals. -/

/-- The `TYPE_KEYWORDS` table: declared type, required terms, forbidden terms,
in the source's dict insertion order. -/
def TYPE_KEYWORDS : List (String × (List String × List String)) :=
  [("FACTURE", (["facture", "invoice"],
                ["devis", "quote", "proforma", "bon de commande", "purchase order"])),
   ("DEVIS", (["devis", "quote", "proforma"], ["facture", "invoice"])),
   ("RELEVE_BANCAIRE", (["relevé", "extrait", "compte", "bank statement"],
                        ["facture", "devis"])),
   ("TICKET_Z", (["ticket z", "rapport de caisse", "z-report"],
                 ["facture", "devis"]))]

/-- Lookup of a declared type in `TYPE_KEYWORDS`. -/
def lookupKeywords (dt : String) : Option (List String × List String) :=
  (TYPE_KEYWORDS.find? (fun e => e.1 == dt)).map (fun e => e.2)

/-- Result shape of `DocumentTypeValidator.validate`. -/
structure TypeValidation where
  valid : Bool
  declaredType : String
  detectedType : Option String
  confidence : ℕ
  reason : String

/-- The required keywords found in the lowercased text (`keyword.lower() in
text_lower`). -/
def requiredFoundIn (textLower : String) (req : List String) : List String :=
  req.filter (fun k => strIn (pyLower k) textLower)

/-- The forbidden keywords found in the lowercased text. -/
def forbiddenFoundIn (textLower : String) (forb : List String) : List String :=
  forb.filter (fun k => strIn (pyLower k) textLower)

/-- The first table entry whose `required` list contains one of the found
forbidden terms (list membership, as in the source's `fb in kw["required"]`). -/
def detectType (forbiddenFound : List String) : Option String :=
  (TYPE_KEYWORDS.find? (fun e => forbiddenFound.any (fun fb => e.2.1.contains fb))).map
    (fun e => e.1)

/-- Python `str(x)` of an optional string (the source interpolates
`detected_type`, which may be `None`). -/
def showOpt (o : Option String) : String :=
  match o with
  | none => "None"
  | some s => s

/-- `DocumentTypeValidator.validate`: unsupported declared type, then
forbidden-term rejection, then the low-confidence no-required-term warning,
then confirmation with `min(100, 50 * hits)` confidence. -/
def validateDocType (text declared : String) : TypeValidation :=
  let dt := pyUpper (pyStrip declared)
  match lookupKeywords dt with
  | none =>
      { valid := false, declaredType := dt, detectedType := none, confidence := 0,
        reason := "Type " ++ sq ++ dt ++ sq ++ " non supporté" }
  | some kw =>
      let textLower := pyLower text
      let requiredFound := requiredFoundIn textLower kw.1
      let forbiddenFound := forbiddenFoundIn textLower kw.2
      let detected := if forbiddenFound.isEmpty then none else detectType forbiddenFound
      if !forbiddenFound.isEmpty then
        { valid := false, declaredType := dt, detectedType := detected, confidence := 0,
          reason := "Document semble être un " ++ sq ++ showOpt detected ++ sq ++
            " (mots trouvés : " ++ String.intercalate ", " forbiddenFound ++
            "), pas un " ++ sq ++ dt ++ sq }
      else if requiredFound.isEmpty then
        { valid := true, declaredType := dt, detectedType := detected, confidence := 50,
          reason := "Aucun mot-clé " ++ sq ++ dt ++ sq ++
            " trouvé dans le texte. Vérifiez que le type déclaré est correct." }
      else
        { valid := true, declaredType := dt, detectedType := detected,
          confidence := min 100 (requiredFound.length * 50),
          reason := "Type " ++ sq ++ dt ++ sq ++ " confirmé (mots trouvés : " ++
            String.intercalate ", " requiredFound ++ ")" }

/-! ### `ImageQualityChecker.check_quality` (image_quality_checker.py lines 62-133)

The four sub-scores come from OpenCV computations on the image (external
collaborators); the embedded function is the combination step: the weighted
overall, the pass decision, and the remediation suggestions. The source
rounds the reported scores with Python `round(x, 2)`; `round2` models this
(Python uses round-half-to-even, which differs only on exact half-cent
ties, none of which occur in the statements below). -/

/-- Two-decimal rounding used for the reported score fields. -/
def round2 (q : ℚ) : ℚ := ((round (q * 100) : ℤ) : ℚ) / 100

/-- The weighted overall score
`sharpness*0.4 + contrast*0.3 + resolution*0.2 + orientation*0.1`. -/
def overallOf (sharp contrast res orient : ℚ) : ℚ :=
  sharp * mkRat 4 10 + contrast * mkRat 3 10 + res * mkRat 2 10 + orient * mkRat 1 10

/-- `ImageQualityChecker._generate_suggestions`: one remediation string per
sub-score under its own threshold (resolution and orientation use the fixed
bounds 75 and 90). -/
def genSuggestions (minSharp minContrast : ℚ) (sharp contrast res orient : ℚ) :
    List String :=
  (if sharp < minSharp then
    ["📸 Image floue détectée. Recommandations: Utilisez un scanner, stabilisez " ++
     sq ++ "appareil photo, activez la mise au point automatique."] else []) ++
  (if contrast < minContrast then
    ["🌓 Contraste insuffisant. Recommandations: Améliorez " ++ sq ++ "éclairage, " ++
     "évitez les contre-jours, utilisez le flash en intérieur."] else []) ++
  (if res < 75 then
    ["🔍 Résolution trop faible. Recommandations: Scanner à 300 DPI minimum, " ++
     "ou photographier de plus près."] else []) ++
  (if orient < 90 then
    ["🔄 Document mal orienté. Recommandations: Redressez le document avant photo/scan."]
   else [])

/-- The `QualityScore` pydantic model. -/
structure QScore where
  overall : ℚ
  sharpness : ℚ
  contrast : ℚ
  resolution : ℚ
  orientation : ℚ
  threshold : ℚ
  passed : Bool
  suggestions : List String

/-- The score-combination step of `ImageQualityChecker.check_quality`:
`overall` is the weighted sum of the four sub-scores,
`passed = overall ≥ min_overall and resolution ≥ 50.0`, and suggestions are
generated only on failure. -/
def checkQualityCore (minSharp minContrast minOverall : ℚ)
    (sharp contrast res orient : ℚ) : QScore :=
  let overall := overallOf sharp contrast res orient
  let passed := decide (minOverall ≤ overall) && decide ((50 : ℚ) ≤ res)
  { overall := round2 overall, sharpness := round2 sharp, contrast := round2 contrast,
    resolution := round2 res, orientation := round2 orient, threshold := minOverall,
    passed := passed,
    suggestions :=
      if passed then [] else genSuggestions minSharp minContrast sharp contrast res orient }

/-! ### `BaseDocumentAgent.process` (base_agent.py lines 86-260)

Each agent variant is the data it declares (type, name, required and
optional field lists); `process` is the shared workflow. The internal
`HybridExtractor.extract` call is the one fallible step; its outcome (a
field dict, or a raised exception with its message) is the explicit
argument `outcome`. -/

/-- The data declared by an agent class. -/
structure AgentSpec where
  documentType : String
  agentName : String
  requiredFields : List String
  optionalFields : List String

/-- `InvoiceAgent` (invoice_agent.py). -/
def invoiceAgent : AgentSpec :=
  { documentType := "FACTURE", agentName := "InvoiceAgent",
    requiredFields := ["numero_facture", "date_facture", "montant_ttc", "fournisseur"],
    optionalFields := ["siret", "montant_ht", "tva_rates", "adresse_fournisseur",
                       "conditions_paiement"] }

/-- `BankAgent` (bank_agent.py). -/
def bankAgent : AgentSpec :=
  { documentType := "RELEVE_BANCAIRE", agentName := "BankAgent",
    requiredFields := ["iban", "solde_final"],
    optionalFields := ["bic", "solde_initial", "transactions"] }

/-- `CashAgent` (cash_agent.py). -/
def cashAgent : AgentSpec :=
  { documentType := "TICKET_Z", agentName := "CashAgent",
    requiredFields := ["date_facture", "montant_ttc"],
    optionalFields := ["fournisseur"] }

/-- The `ProcessingResult` pydantic model. -/
structure ProcessingResult where
  success : Bool
  documentType : String
  agentName : String
  extractedData : Dict
  missingRequiredFields : List String
  extractionMethod : String
  confidenceScore : ℚ
  errors : List String
  warnings : List String

/-- `BaseDocumentAgent._check_required_fields`: a required field is missing
when absent, `None`, `""`, `[]` or `{}`. -/
def checkRequiredFields (spec : AgentSpec) (data : Dict) : List String :=
  spec.requiredFields.filter (fun f => falsyVal (pyGet data f))

/-- `data.get("_extraction_method", "UNKNOWN")`; the extractors always store
a string here. -/
def extractionMethodOf (data : Dict) : String :=
  match pyGet data "_extraction_method" with
  | some (Value.str s) => s
  | _ => "UNKNOWN"

/-- `BaseDocumentAgent._calculate_confidence`: 70% weight on the required
found ratio, 30% on the optional found ratio, a ±5 method bonus, clamped to
[0, 100] and rounded to two decimals. -/
def calculateConfidence (spec : AgentSpec) (data : Dict) : ℚ :=
  if spec.requiredFields.length + spec.optionalFields.length = 0 then 100
  else
    let foundReq := (spec.requiredFields.filter (fun f => !falsyVal (pyGet data f))).length
    let foundOpt := (spec.optionalFields.filter (fun f => !falsyVal (pyGet data f))).length
    let requiredScore : ℚ :=
      if spec.requiredFields.isEmpty then 70
      else (foundReq : ℚ) / (spec.requiredFields.length : ℚ) * 70
    let optionalScore : ℚ :=
      if spec.optionalFields.isEmpty then 30
      else (foundOpt : ℚ) / (spec.optionalFields.length : ℚ) * 30
    let method := extractionMethodOf data
    let bonus : ℚ := if method = "REGEX" then 5 else if method = "HYBRID" then 0 else -5
    round2 (min 100 (max 0 (requiredScore + optionalScore + bonus)))

/-- `BaseDocumentAgent._generate_warnings`: one warning per falsy optional
field. -/
def generateWarnings (spec : AgentSpec) (data : Dict) : List String :=
  (spec.optionalFields.filter (fun f => falsyVal (pyGet data f))).map
    (fun f => "Champ optionnel manquant : " ++ f ++ " (non bloquant mais recommandé)")

/-- `BaseDocumentAgent.process`: on a successful extraction, validate the
required fields, compute the confidence and the warnings; on any exception
raised by the extractor, return the catch-all failure result. The embedding
is a total function: no outcome propagates an exception to the caller. -/
def processAgent (spec : AgentSpec) (outcome : Except String Dict) : ProcessingResult :=
  match outcome with
  | Except.error e =>
      { success := false, documentType := spec.documentType, agentName := spec.agentName,
        extractedData := [], missingRequiredFields := spec.requiredFields,
        extractionMethod := "ERROR", confidenceScore := 0,
        errors := ["Erreur fatale : " ++ e], warnings := [] }
  | Except.ok extracted =>
      let missingRequired := checkRequiredFields spec extracted
      let success := missingRequired.isEmpty
      { success := success, documentType := spec.documentType,
        agentName := spec.agentName, extractedData := extracted,
        missingRequiredFields := missingRequired,
        extractionMethod := extractionMethodOf extracted,
        confidenceScore := calculateConfidence spec extracted,
        errors :=
          if success then []
          else ["Champs obligatoires manquants : " ++ String.intercalate ", " missingRequired],
        warnings := generateWarnings spec extracted }

/-! ### `LLMExtractor` (llm_extractor.py)

The HTTP backend and `json.loads` are external collaborators: the call's
outcome is an `OllamaCall` value and the JSON decoder is an explicit
function argument (`none` models a `JSONDecodeError`). -/

/-- The `NUMERIC_PROTECTED_FIELDS` set of `LLMExtractor`. -/
def NUMERIC_PROTECTED_FIELDS : List String :=
  ["montant_ttc", "montant_ht", "tva_rates", "siret", "siren", "iban", "bic",
   "solde_initial", "solde_final", "numero_facture", "date_facture"]

/-- Outcome of the `POST /api/generate` request made by
`LLMExtractor._call_ollama`. -/
inductive OllamaCall where
  | timeout : OllamaCall
  | requestError : OllamaCall
  | ok : String → OllamaCall

/-- `LLMExtractor._call_ollama`: `None` on `Timeout` or any
`RequestException` (which covers `raise_for_status`), otherwise the
response's generated text. -/
def callOllama : OllamaCall → Option String
  | OllamaCall.timeout => none
  | OllamaCall.requestError => none
  | OllamaCall.ok raw => some raw

/-- Opening brace, written by code point. -/
def lbrace : Char := Char.ofNat 123

/-- Closing brace, written by code point. -/
def rbrace : Char := Char.ofNat 125

/-- Index of the last occurrence of a character. -/
def lastIndexOf (c : Char) (l : List Char) : Option ℕ :=
  match l.reverse.indexOf? c with
  | none => none
  | some k => some (l.length - 1 - k)

/-- The text matched by `re.search(r'\{.*\}', raw, re.DOTALL)`: from the
first opening brace to the last closing brace, provided the latter comes
after the former (greedy `.*` under DOTALL; when the first opening brace
lies after every closing brace no later start can match either). -/
def findJsonBlock (l : List Char) : Option (List Char) :=
  match l.indexOf? lbrace, lastIndexOf rbrace l with
  | some i, some j => if i < j then some ((l.drop i).take (j - i + 1)) else none
  | _, _ => none

/-- `LLMExtractor._parse_json_response`: locate the JSON block, decode it,
insist on an object, and drop `null`/empty values. Any decode failure or
non-object value yields the empty dict. -/
def parseJsonResponse (jsonLoads : String → Option Value) (raw : String) : Dict :=
  match findJsonBlock raw.data with
  | none => []
  | some block =>
      match jsonLoads (String.mk block) with
      | none => []
      | some (Value.vdict kvs) => kvs.filter (fun kv => !kv.2.isFalsyField)
      | some _ => []

/-- `LLMExtractor.extract`: filter the missing fields against the internal
(`_`-prefixed) and `NUMERIC_PROTECTED_FIELDS` names, return the empty dict
when nothing is eligible, otherwise call the backend and parse its
response; every failure path yields the empty dict (the source's catch-all
`except` returns `{}`). -/
def llmExtract (missing : List String) (call : OllamaCall)
    (jsonLoads : String → Option Value) : Dict :=
  let fieldsToExtract := missing.filter
    (fun f => !(startsUnderscore f) && !NUMERIC_PROTECTED_FIELDS.contains f)
  if fieldsToExtract.isEmpty then []
  else
    match callOllama call with
    | none => []
    | some raw => if raw = "" then [] else parseJsonResponse jsonLoads raw

/-! ### `HybridExtractor.extract` (hybrid_extractor.py lines 55-177)

Phase 1 (the regex extractor run on the text) is the `regexResult`
argument: an insertion-ordered dict holding one entry per declared schema
field plus the `_missing_fields` and `_extraction_method` metadata, exactly
as `extract_invoice_fields` / `extract_bank_fields` build it. The LLM
availability probe and call are the `available`/`call`/`jsonLoads`
arguments. -/

/-- Behaviour of the semantic backend during one extraction. -/
structure LLMEnv where
  available : Bool
  call : OllamaCall
  jsonLoads : String → Option Value

/-- The string entries of a `_missing_fields` list value. -/
def strEntries : Value → List String
  | Value.vlist vs => vs.filterMap (fun v => match v with
      | Value.str s => some s
      | _ => none)
  | _ => []

/-- A list of strings as a `Value`. -/
def strListV (l : List String) : Value := Value.vlist (l.map Value.str)

/-- The overlay loop of the merge: walk the regex result in insertion
order and write every non-metadata, non-`None`/`[]`/`{}` field over the
accumulator. -/
def overlayRegex (regexResult acc : Dict) : Dict :=
  regexResult.foldl
    (fun acc kv =>
      if !(startsUnderscore kv.1) && !kv.2.isEmptyColl then pySet acc kv.1 kv.2 else acc)
    acc

/-- The merge step of `HybridExtractor.extract`: start from the LLM result,
overwrite it with every regex field that is not `None`/`[]`/`{}`, recompute
`_missing_fields` over the regex result's (schema) keys, and tag
`_extraction_method` as `HYBRID` exactly when the LLM result is non-empty. -/
def hybridMerge (regexResult llmResult : Dict) : Dict :=
  let overlaid := overlayRegex regexResult llmResult
  let finalMissing := (pyKeys regexResult).filter
    (fun k => !(startsUnderscore k) && missingVal (pyGet overlaid k))
  let withMissing := pySet overlaid "_missing_fields" (strListV finalMissing)
  pySet withMissing "_extraction_method"
    (Value.str (if llmResult.isEmpty then "REGEX" else "HYBRID"))

/-- `HybridExtractor.extract` after Phase 1: run the LLM only when it is
enabled, some fields are missing and the availability probe succeeds (its
exceptions are swallowed, so a failing call contributes the empty dict),
then merge. -/
def hybridExtract (useLLM : Bool) (env : LLMEnv) (regexResult : Dict) : Dict :=
  let missing := match pyGet regexResult "_missing_fields" with
    | some v => strEntries v
    | none => []
  let llmResult :=
    if useLLM && !missing.isEmpty && env.available then
      llmExtract missing env.call env.jsonLoads
    else []
  hybridMerge regexResult llmResult

/-! ### The gate pipeline, `upload_document` (api/main.py lines 108-587)

The embedding starts at PORTE 0 (extension/size validation and the temp
save are HTTP-request mechanics). Collaborator calls (file detector, PDF
rasterizer, quality checker, OCR engine, the agent's extractor) are fields
of `PipelineEnv`: each call site reads its own outcome, so two calls of the
same collaborator may differ, as on the real side-effecting services.
`Except.error` models a raised exception carrying `str(e)`. The trace
additionally records the gates entered and the number of rasterize+OCR
attempts made inside PORTE 2B. Messages embedding Python float formatting
keep the surrounding text with the number elided; no claim depends on
message wording. -/

/-- File classifications produced by `FileTypeDetector.detect`. -/
inductive FileType where
  | pdfNativeText : FileType
  | pdfImage : FileType
  | imagePure : FileType
  | unsupported : FileType
deriving DecidableEq

/-- The `OCRQualityScore` fields the pipeline reads. -/
structure OcrQ where
  overall : ℚ
  passed : Bool

/-- The `TextExtractionResult` fields the pipeline reads (`char_count` is
`len(text)` as produced by the OCR engine). -/
structure TextRes where
  text : String
  charCount : ℕ
  extractionMethod : String
  ocrQuality : Option OcrQ

/-- One entry of the response's `metadata` dict, tagged by origin. -/
inductive MetaItem where
  | fileMeta : Value → MetaItem
  | ocrQuality : OcrQ → MetaItem
  | extractedText : String → MetaItem
  | textLength : ℕ → MetaItem
  | typeValidationItem : TypeValidation → MetaItem
  | textExtractionInfo : String → ℕ → MetaItem
  | agentSummary : String → String → String → ℚ → MetaItem
  | agentBrief : String → ℚ → MetaItem
  | extractedDataItem : Dict → MetaItem

/-- The gate that produced a metadata entry: file-detector metadata is
gate 0, OCR/text data gate 2, the type validation gate 3, the structured
extraction gate 4, and the agent's verdict gate 5. -/
def gateOfMeta : MetaItem → ℕ
  | MetaItem.fileMeta _ => 0
  | MetaItem.ocrQuality _ => 2
  | MetaItem.extractedText _ => 2
  | MetaItem.textLength _ => 2
  | MetaItem.typeValidationItem _ => 3
  | MetaItem.textExtractionInfo _ _ => 2
  | MetaItem.agentSummary _ _ _ _ => 5
  | MetaItem.agentBrief _ _ => 5
  | MetaItem.extractedDataItem _ => 4

/-- Terminal statuses of `UploadResponse`. -/
inductive PStatus where
  | completed : PStatus
  | rejected : PStatus
deriving DecidableEq

/-- The `UploadResponse` fields the claims are about. -/
structure Resp where
  status : PStatus
  rejectedAtGate : Option ℕ
  rejectionReason : Option String
  fileTypeTag : Option FileType
  qualityScore : Option QScore
  message : String
  suggestions : List String
  metadata : List MetaItem

/-- One pipeline run: the response, the gates entered, and the number of
PORTE 2B rasterize+OCR attempts. -/
structure Trace where
  resp : Resp
  gates : List ℕ
  retries : ℕ

/-- Collaborator outcomes for one run. -/
structure PipelineEnv where
  fileType : FileType
  fileMeta : Value
  convert1 : Except String Unit
  quality : QScore
  nativeExtract : Except String TextRes
  imageOcr : Except String TextRes
  retryConvert : Except String Unit
  retryOcr : Except String TextRes
  wmConvert : Except String Unit
  wmOcr : Except String TextRes
  agentOutcome : Except String Dict

/-- The image-branch test `file_type in [FileType.PDF_IMAGE, FileType.IMAGE_PURE]`. -/
def isImageBranch (ft : FileType) : Bool :=
  ft = FileType.pdfImage || ft = FileType.imagePure

/-- PORTE 0 rejection (unsupported file type). -/
def resp0 (env : PipelineEnv) : Resp :=
  { status := PStatus.rejected, rejectedAtGate := some 0,
    rejectionReason := some "UNSUPPORTED_FILE_TYPE",
    fileTypeTag := some env.fileType, qualityScore := none,
    message := "Type de fichier non supporté", suggestions := [],
    metadata := [MetaItem.fileMeta env.fileMeta] }

/-- PORTE 1: on the image branch, rasterize the first page of a scanned
PDF (its failure rejects with `PDF_CONVERSION_FAILED`), then check image
quality (`IMAGE_QUALITY_LOW` on failure); the native branch skips the
gate. Returns the quality score kept for later responses. -/
def gate1 (env : PipelineEnv) : Except Resp (Option QScore) :=
  if isImageBranch env.fileType then
    match env.fileType, env.convert1 with
    | FileType.pdfImage, Except.error e =>
        Except.error
          { status := PStatus.rejected, rejectedAtGate := some 1,
            rejectionReason := some "PDF_CONVERSION_FAILED",
            fileTypeTag := some env.fileType, qualityScore := none,
            message := "Impossible d" ++ sq ++ "extraire l" ++ sq ++ "image du PDF: " ++ e,
            suggestions := [], metadata := [MetaItem.fileMeta env.fileMeta] }
    | _, _ =>
        if !env.quality.passed then
          Except.error
            { status := PStatus.rejected, rejectedAtGate := some 1,
              rejectionReason := some "IMAGE_QUALITY_LOW",
              fileTypeTag := some env.fileType, qualityScore := some env.quality,
              message := "Qualité image insuffisante",
              suggestions := env.quality.suggestions,
              metadata := [MetaItem.fileMeta env.fileMeta] }
        else Except.ok (some env.quality)
  else Except.ok none

/-- A PORTE 2A rejection for a raised extraction exception. -/
def reject2Extraction (env : PipelineEnv) (e : String) : Resp :=
  { status := PStatus.rejected, rejectedAtGate := some 2,
    rejectionReason := some "TEXT_EXTRACTION_FAILED",
    fileTypeTag := some env.fileType, qualityScore := none,
    message := "Impossible d" ++ sq ++ "extraire le texte: " ++ e,
    suggestions := [], metadata := [MetaItem.fileMeta env.fileMeta] }

/-- PORTE 2A: direct extraction on the native branch, OCR plus the
OCR-quality check on the image branch. Reading `ocr_quality` on a result
lacking it raises an `AttributeError`, caught by the same handler as the
extraction exceptions. -/
def gate2A (env : PipelineEnv) (qs : Option QScore) : Except Resp TextRes :=
  match env.fileType with
  | FileType.pdfNativeText =>
      match env.nativeExtract with
      | Except.error e => Except.error (reject2Extraction env e)
      | Except.ok tr => Except.ok tr
  | FileType.pdfImage =>
      match env.imageOcr with
      | Except.error e => Except.error (reject2Extraction env e)
      | Except.ok tr =>
          match tr.ocrQuality with
          | none => Except.error (reject2Extraction env "AttributeError")
          | some q =>
              if !q.passed then
                Except.error
                  { status := PStatus.rejected, rejectedAtGate := some 2,
                    rejectionReason := some "OCR_QUALITY_LOW",
                    fileTypeTag := some env.fileType, qualityScore := qs,
                    message := "Qualité OCR insuffisante",
                    suggestions :=
                      ["📄 Le texte du document est difficile à lire. Recommandations:",
                       "- Améliorer la qualité du scan (netteté, résolution)",
                       "- Vérifier que le document n" ++ sq ++ "est pas trop dégradé",
                       "- Réessayer avec un document de meilleure qualité"],
                    metadata := [MetaItem.fileMeta env.fileMeta, MetaItem.ocrQuality q] }
              else Except.ok tr
  | FileType.imagePure =>
      match env.imageOcr with
      | Except.error e => Except.error (reject2Extraction env e)
      | Except.ok tr =>
          match tr.ocrQuality with
          | none => Except.error (reject2Extraction env "AttributeError")
          | some q =>
              if !q.passed then
                Except.error
                  { status := PStatus.rejected, rejectedAtGate := some 2,
                    rejectionReason := some "OCR_QUALITY_LOW",
                    fileTypeTag := some env.fileType, qualityScore := qs,
                    message := "Qualité OCR insuffisante",
                    suggestions :=
                      ["📄 Le texte du document est difficile à lire. Recommandations:",
                       "- Améliorer la qualité du scan (netteté, résolution)",
                       "- Vérifier que le document n" ++ sq ++ "est pas trop dégradé",
                       "- Réessayer avec un document de meilleure qualité"],
                    metadata := [MetaItem.fileMeta env.fileMeta, MetaItem.ocrQuality q] }
              else Except.ok tr
  | FileType.unsupported => Except.error (reject2Extraction env "unreachable")

/-- The scanner-watermark denylist of PORTE 2B. -/
def watermarks : List String :=
  ["onlinephotoscanner", "camscanner", "adobe scan", "evaluation", "demo", "trial"]

/-- PORTE 2B rejection when the substantiality retry itself raised. -/
def reject2RetryFailed (env : PipelineEnv) (textLength : ℕ) (e : String) : Resp :=
  { status := PStatus.rejected, rejectedAtGate := some 2,
    rejectionReason := some "TEXT_EXTRACTION_FAILED",
    fileTypeTag := some env.fileType, qualityScore := none,
    message := "Texte insuffisant (" ++ toString textLength ++
      " chars) et conversion échouée : " ++ e,
    suggestions :=
      ["Le document ne contient pas assez de texte exploitable",
       "Vérifiez que le scan est complet",
       "Essayez de rescanner le document en meilleure qualité",
       "Erreur technique : " ++ e],
    metadata := [MetaItem.fileMeta env.fileMeta] }

/-- PORTE 2B final rejection when the text is still below 50 characters;
the short text (its first 200 characters) is preserved in the metadata. -/
def reject2StillShort (env : PipelineEnv) (t : String) (n : ℕ) : Resp :=
  { status := PStatus.rejected, rejectedAtGate := some 2,
    rejectionReason := some "TEXT_EXTRACTION_FAILED",
    fileTypeTag := some env.fileType, qualityScore := none,
    message := "Document ne contient pas assez de texte exploitable (" ++
      toString n ++ " chars)",
    suggestions :=
      ["Le document semble vide ou contenir seulement un watermark",
       "Vérifiez que le fichier PDF contient bien une image scannée",
       "Essayez d" ++ sq ++ "exporter le scan dans un format image (JPG/PNG) plutôt que PDF",
       "Rescannez le document original en meilleure qualité"],
    metadata := [MetaItem.fileMeta env.fileMeta,
                 MetaItem.extractedText (String.mk (t.data.take 200)),
                 MetaItem.textLength n] }

/-- The substantiality retry of PORTE 2B: when the stripped length of the
extracted text is below 50 and the branch was native-text, rasterize the
first page and OCR it (an exception in either call rejects at gate 2),
keeping whichever result has more characters (`char_count` of the new
result against the stripped length of the old one, as in the source). -/
def substantialityRetry (env : PipelineEnv) (textLength : ℕ) (tr : TextRes) :
    ℕ × Except Resp TextRes :=
  if textLength < 50 && env.fileType = FileType.pdfNativeText then
    match env.retryConvert with
    | Except.error e => (1, Except.error (reject2RetryFailed env textLength e))
    | Except.ok _ =>
        match env.retryOcr with
        | Except.error e => (1, Except.error (reject2RetryFailed env textLength e))
        | Except.ok newTr =>
            (1, Except.ok (if textLength < newTr.charCount then newTr else tr))
  else (0, Except.ok tr)

/-- The watermark check of PORTE 2B: it re-tests the PRE-retry length
(`text_length` is not recomputed in the source) against 100, scans the
current text for the denylist, and on a hit with a native-text branch runs
the rasterize+OCR path again; its exceptions are only logged. -/
def watermarkRetry (env : PipelineEnv) (textLength : ℕ) (tr1 : TextRes) :
    ℕ × TextRes :=
  if textLength < 100 &&
      watermarks.any (fun wm => strIn wm (pyLower tr1.text)) &&
      env.fileType = FileType.pdfNativeText && textLength < 100 then
    match env.wmConvert with
    | Except.error _ => (1, tr1)
    | Except.ok _ =>
        match env.wmOcr with
        | Except.error _ => (1, tr1)
        | Except.ok newTr =>
            (1, if textLength < newTr.charCount then newTr else tr1)
  else (0, tr1)

/-- PORTE 2B: substantiality retry, watermark check, then the final
rejection when the text is still below 50 characters. Returns the
rasterize+OCR attempt count alongside the outcome. -/
def gate2B (env : PipelineEnv) (tr : TextRes) : ℕ × Except Resp TextRes :=
  let textLength := (pyStrip tr.text).length
  match substantialityRetry env textLength tr with
  | (r1, Except.error resp) => (r1, Except.error resp)
  | (r1, Except.ok tr1) =>
      let step2 := watermarkRetry env textLength tr1
      let finalLen := (pyStrip step2.2.text).length
      if finalLen < 50 then
        (r1 + step2.1, Except.error (reject2StillShort env step2.2.text finalLen))
      else (r1 + step2.1, Except.ok step2.2)

/-- `PatternManager.from_text` (pattern_manager.py): keyword vote for the
locale, with a French fallback. -/
def detectLanguage (text : String) : String :=
  let tl := pyLower text
  if ["facture", "fournisseur", "tva", "siret"].any (fun w => strIn w tl) then "fr"
  else if ["invoice", "supplier", "vat", "tax"].any (fun w => strIn w tl) then "en"
  else "fr"

/-- The `AGENT_REGISTRY` of document_router.py. -/
def AGENT_REGISTRY : List (String × AgentSpec) :=
  [("FACTURE", invoiceAgent), ("RELEVE_BANCAIRE", bankAgent), ("TICKET_Z", cashAgent)]

/-- `DocumentRouter.get_agent`: uppercase and strip the declared type, then
look it up in the registry (`None` for an unknown type). -/
def getAgent (documentType : String) : Option AgentSpec :=
  (AGENT_REGISTRY.find? (fun e => e.1 == pyUpper (pyStrip documentType))).map (fun e => e.2)

/-- PORTE 3 rejection on a declared/content type mismatch. -/
def reject3TypeMismatch (env : PipelineEnv) (tv : TypeValidation) : Resp :=
  { status := PStatus.rejected, rejectedAtGate := some 3,
    rejectionReason := some "TYPE_MISMATCH",
    fileTypeTag := some env.fileType, qualityScore := none,
    message := tv.reason,
    suggestions :=
      ["Type détecté : " ++ showOpt tv.detectedType,
       "Type déclaré : " ++ tv.declaredType,
       "Vérifiez le type de document avant de le soumettre à nouveau"],
    metadata := [MetaItem.fileMeta env.fileMeta, MetaItem.typeValidationItem tv] }

/-- PORTE 3 rejection for an unregistered document type. -/
def reject3Unknown (env : PipelineEnv) (documentType : String) : Resp :=
  { status := PStatus.rejected, rejectedAtGate := some 3,
    rejectionReason := some "UNKNOWN_DOCUMENT_TYPE",
    fileTypeTag := some env.fileType, qualityScore := none,
    message := "Type de document non supporté: " ++ sq ++ documentType ++ sq,
    suggestions := ["Types supportés : FACTURE, RELEVE_BANCAIRE, TICKET_Z"],
    metadata := [MetaItem.fileMeta env.fileMeta] }

/-- PORTE 5 rejection when required fields are missing. -/
def reject5 (env : PipelineEnv) (qs : Option QScore) (pr : ProcessingResult) : Resp :=
  { status := PStatus.rejected, rejectedAtGate := some 5,
    rejectionReason := some "VALIDATION_FAILED",
    fileTypeTag := some env.fileType, qualityScore := qs,
    message := "Validation échouée : champs obligatoires manquants",
    suggestions := pr.errors ++ pr.warnings,
    metadata := [MetaItem.fileMeta env.fileMeta,
                 MetaItem.agentBrief pr.agentName pr.confidenceScore,
                 MetaItem.extractedDataItem pr.extractedData] }

/-- Successful completion response. -/
def respSuccess (env : PipelineEnv) (qs : Option QScore) (tr : TextRes)
    (pr : ProcessingResult) : Resp :=
  { status := PStatus.completed, rejectedAtGate := none, rejectionReason := none,
    fileTypeTag := some env.fileType, qualityScore := qs,
    message := "Document traité avec succès", suggestions := [],
    metadata := [MetaItem.fileMeta env.fileMeta,
                 MetaItem.textExtractionInfo tr.extractionMethod tr.charCount,
                 MetaItem.agentSummary pr.agentName pr.documentType
                   pr.extractionMethod pr.confidenceScore,
                 MetaItem.extractedDataItem pr.extractedData] }

/-- The gates entered once PORTE 0 passed: PORTE 1 runs only on the image
branch. -/
def g01 (env : PipelineEnv) : List ℕ :=
  if isImageBranch env.fileType then [0, 1] else [0]

/-- `upload_document` from PORTE 0 on: the sequential gate pipeline. The
declared `language` parameter only selects the pattern locale
(`detectLanguage` on `auto`) and does not influence any response field, so
it is omitted. -/
def uploadDocument (env : PipelineEnv) (documentType : String) : Trace :=
  if env.fileType = FileType.unsupported then
    { resp := resp0 env, gates := [0], retries := 0 }
  else
    match gate1 env with
    | Except.error r => { resp := r, gates := [0, 1], retries := 0 }
    | Except.ok qs =>
        match gate2A env qs with
        | Except.error r => { resp := r, gates := g01 env ++ [2], retries := 0 }
        | Except.ok tr =>
            match gate2B env tr with
            | (n, Except.error r) => { resp := r, gates := g01 env ++ [2], retries := n }
            | (n, Except.ok tr2) =>
                let tv := validateDocType tr2.text documentType
                if !tv.valid then
                  { resp := reject3TypeMismatch env tv, gates := g01 env ++ [2, 3],
                    retries := n }
                else
                  match getAgent documentType with
                  | none =>
                      { resp := reject3Unknown env documentType,
                        gates := g01 env ++ [2, 3], retries := n }
                  | some spec =>
                      let pr := processAgent spec env.agentOutcome
                      if pr.success then
                        { resp := respSuccess env qs tr2 pr,
                          gates := g01 env ++ [2, 3, 4, 5], retries := n }
                      else
                        { resp := reject5 env qs pr,
                          gates := g01 env ++ [2, 3, 4, 5], retries := n }

/-! ### Concrete run data used by the closed theorems -/

/-- A raw LLM response whose JSON object names a protected field (braces
written by code point): the prompt only asked for non-protected fields,
but nothing constrains what the model actually answers. -/
def cexRawResponse : String := "\x7b\"montant_ttc\": \"999.99\"\x7d"

/-- `json.loads` on the counterexample response (decoded per the JSON
standard); other inputs are irrelevant to the run. -/
def cexJsonLoads : String → Option Value := fun s =>
  if s = cexRawResponse then some (Value.vdict [("montant_ttc", Value.str "999.99")])
  else none

/-- An LLM environment: backend available, returning `cexRawResponse`. -/
def cexLLMEnv : LLMEnv :=
  { available := true, call := OllamaCall.ok cexRawResponse, jsonLoads := cexJsonLoads }

/-- The `extract_invoice_fields` output for a text in which no invoice
pattern matches (e.g. fifty letters "z": every pattern needs a digit, a
keyword, or a capitalized line): the source's dict skeleton with every
field unfound and all ten schema fields missing, in insertion order. -/
def blankInvoiceRegexResult : Dict :=
  [("numero_facture", Value.null), ("date_facture", Value.null),
   ("montant_ttc", Value.null), ("montant_ht", Value.null),
   ("tva_rates", Value.vlist []), ("fournisseur", Value.null),
   ("siret", Value.null), ("adresse_fournisseur", Value.null),
   ("lignes_articles", Value.vlist []), ("conditions_paiement", Value.null),
   ("_missing_fields", strListV
     ["numero_facture", "date_facture", "montant_ttc", "montant_ht", "tva_rates",
      "fournisseur", "siret", "adresse_fournisseur", "lignes_articles",
      "conditions_paiement"]),
   ("_extraction_method", Value.str "REGEX")]

/-- A quality score value used in the concrete pipeline runs. -/
def passingQScore : QScore :=
  { overall := 90, sharpness := 95, contrast := 90, resolution := 85, orientation := 100,
    threshold := 70, passed := true, suggestions := [] }

/-- The native extraction of the C5 run: a 29-character text (below the
50-character substantiality bound) containing the watermark token "demo". -/
def c5Text : String := "demo demo demo demo demo demo"

/-- The C5 environment: a native-text PDF whose direct extraction is
`c5Text`; the substantality retry's OCR yields 20 characters and the
watermark branch's OCR yields 10, so neither replaces the original. -/
def c5Env : PipelineEnv :=
  { fileType := FileType.pdfNativeText,
    fileMeta := Value.null,
    convert1 := Except.ok (),
    quality := passingQScore,
    nativeExtract := Except.ok
      { text := c5Text, charCount := 29, extractionMethod := "DIRECT", ocrQuality := none },
    imageOcr := Except.error "not reached",
    retryConvert := Except.ok (),
    retryOcr := Except.ok
      { text := "bcbcbcbcbcbcbcbcbcbc", charCount := 20, extractionMethod := "OCR",
        ocrQuality := some { overall := 60, passed := true } },
    wmConvert := Except.ok (),
    wmOcr := Except.ok
      { text := "bcbcbcbcbc", charCount := 10, extractionMethod := "OCR",
        ocrQuality := some { overall := 60, passed := true } },
    agentOutcome := Except.ok [] }

/-- An environment whose document is of an unsupported file type: the run
terminates at PORTE 0. -/
def gate0Env : PipelineEnv :=
  { fileType := FileType.unsupported,
    fileMeta := Value.null,
    convert1 := Except.ok (),
    quality := passingQScore,
    nativeExtract := Except.error "not reached",
    imageOcr := Except.error "not reached",
    retryConvert := Except.ok (),
    retryOcr := Except.error "not reached",
    wmConvert := Except.ok (),
    wmOcr := Except.error "not reached",
    agentOutcome := Except.ok [] }

/-! ## Theorems -/

/-- C2: `_parse_amount` is total — for every input string it returns either
a numeric value or no value (the embedding is a total Lean function, and
the source wraps its final conversion in a `ValueError` handler, so no
exception escapes) — and it is locale-format invariant: the European form
"1.234,56" and the Anglo form "1,234.56" both parse to exactly
1234.56 (= 123456/100). -/
theorem c2_parse_amount_total_and_format_invariant :
    (∀ s : String, parseAmount s = none ∨ ∃ q : ℚ, parseAmount s = some q) ∧
    parseAmount "1.234,56" = some (mkRat 123456 100) ∧
    parseAmount "1,234.56" = some (mkRat 123456 100) ∧
    mkRat 123456 100 = (1234.56 : ℚ) := by
  refine ⟨fun s => ?_, by decide, by decide, by norm_num [mkRat, Rat.normalize]⟩
  cases h : parseAmount s with
  | none => exact Or.inl rfl
  | some q => exact Or.inr ⟨q, rfl⟩

/-- C7: the SIRET Luhn validator accepts the 14-digit sample
"73282932000074", and changing its last digit to any of the nine other
digits makes it reject. -/
theorem c7_siret_luhn_last_digit :
    validateSiretLuhn "73282932000074" = true ∧
    validateSiretLuhn "73282932000070" = false ∧
    validateSiretLuhn "73282932000071" = false ∧
    validateSiretLuhn "73282932000072" = false ∧
    validateSiretLuhn "73282932000073" = false ∧
    validateSiretLuhn "73282932000075" = false ∧
    validateSiretLuhn "73282932000076" = false ∧
    validateSiretLuhn "73282932000077" = false ∧
    validateSiretLuhn "73282932000078" = false ∧
    validateSiretLuhn "73282932000079" = false := by decide

/-- C10: an agent's `process` returns a `ProcessingResult` for every
extraction outcome (the embedding is total: the source's catch-all handler
turns any raised exception into a result instead of propagating it), and
when the internal extraction raises, the result is the catch-all failure:
`success = false`, empty extracted data, method `"ERROR"`, confidence 0,
and the agent's full required-field list reported missing. -/
theorem c10_agent_process_error_result (spec : AgentSpec) (e : String) :
    processAgent spec (Except.error e) =
      { success := false, documentType := spec.documentType,
        agentName := spec.agentName, extractedData := [],
        missingRequiredFields := spec.requiredFields, extractionMethod := "ERROR",
        confidenceScore := 0, errors := ["Erreur fatale : " ++ e],
        warnings := [] } := rfl

/-- C9: for every computed set of sub-scores, the overall quality score is
the weighted sum 0.4·sharpness + 0.3·contrast + 0.2·resolution +
0.1·orientation (the reported field is that sum rounded to two decimals),
the check passes exactly when the overall reaches the configured threshold
and the resolution sub-score reaches the fixed floor 50, and a resolution
score below 50 forces failure regardless of the other sub-scores. -/
theorem c9_quality_overall_and_pass
    (minSharp minContrast minOverall sharp contrast res orient : ℚ) :
    overallOf sharp contrast res orient =
      mkRat 4 10 * sharp + mkRat 3 10 * contrast + mkRat 2 10 * res +
        mkRat 1 10 * orient ∧
    (checkQualityCore minSharp minContrast minOverall sharp contrast res orient).overall =
      round2 (overallOf sharp contrast res orient) ∧
    ((checkQualityCore minSharp minContrast minOverall sharp contrast res orient).passed =
        true ↔
      (minOverall ≤ overallOf sharp contrast res orient ∧ (50 : ℚ) ≤ res)) ∧
    (res < 50 →
      (checkQualityCore minSharp minContrast minOverall sharp contrast res orient).passed =
        false) := by
  refine ⟨by unfold overallOf; ring, rfl, ?_, ?_⟩
  · simp [checkQualityCore]
  · intro h
    have hres : decide ((50 : ℚ) ≤ res) = false := decide_eq_false (not_le.mpr h)
    simp [checkQualityCore, hres]

/-- Closed witness for C9: with perfect sharpness, contrast and orientation
but resolution 30, the quality check fails. -/
theorem c9_quality_witness :
    (checkQualityCore 45 35 70 100 100 30 100).passed = false :=
  (c9_quality_overall_and_pass 45 35 70 100 100 30 100).2.2.2 (by decide)

/-- C8 (amended): the validator decides in order — any forbidden term makes
the result invalid, with the detected type given by `detectType`: the first
table entry whose required list contains a found forbidden term, when such
an entry exists; with no forbidden term and no required term the result is
valid at confidence exactly 50; otherwise it is valid at confidence
`min 100 (50·hits)`. The FACTURE-over-DEVIS instance is included. -/
theorem c8_type_validation_decision (text declared : String) (req forb : List String)
    (hk : lookupKeywords (pyUpper (pyStrip declared)) = some (req, forb)) :
    ((forbiddenFoundIn (pyLower text) forb).isEmpty = false →
        (validateDocType text declared).valid = false ∧
        (validateDocType text declared).detectedType =
          detectType (forbiddenFoundIn (pyLower text) forb) ∧
        (∀ t, detectType (forbiddenFoundIn (pyLower text) forb) = some t →
          ∃ e ∈ TYPE_KEYWORDS, e.1 = t ∧
            ∃ fb ∈ forbiddenFoundIn (pyLower text) forb, e.2.1.contains fb = true)) ∧
    ((forbiddenFoundIn (pyLower text) forb).isEmpty = true →
      (requiredFoundIn (pyLower text) req).isEmpty = true →
        (validateDocType text declared).valid = true ∧
        (validateDocType text declared).confidence = 50) ∧
    ((forbiddenFoundIn (pyLower text) forb).isEmpty = true →
      (requiredFoundIn (pyLower text) req).isEmpty = false →
        (validateDocType text declared).valid = true ∧
        (validateDocType text declared).confidence =
          min 100 ((requiredFoundIn (pyLower text) req).length * 50)) ∧
    (validateDocType "DEVIS N 2024-017 pour travaux de peinture" "FACTURE").valid =
      false ∧
    (validateDocType "DEVIS N 2024-017 pour travaux de peinture" "FACTURE").detectedType =
      some "DEVIS" := by
  refine ⟨?_, ?_, ?_, by decide, by decide⟩
  · intro hf
    refine ⟨?_, ?_, ?_⟩
    · simp only [validateDocType, hk]
      simp [hf]
    · simp only [validateDocType, hk]
      simp [hf]
    intro t ht
    unfold detectType at ht
    rcases Option.map_eq_some'.mp ht with ⟨e, he, rfl⟩
    refine ⟨e, List.mem_of_find?_eq_some he, rfl, ?_⟩
    have := List.find?_some he
    exact List.any_eq_true.mp this
  · intro hf hr
    simp only [validateDocType, hk]
    simp [hf, hr]
  · intro hf hr
    simp only [validateDocType, hk]
    simp [hf, hr]

/-- Counterexample to C8 as stated: declared FACTURE over a text containing
the forbidden term "bon de commande" is invalid, but no type's required
list contains that term, so the detected type is empty rather than "the
type whose required set contains that forbidden term". -/
theorem c8_counterexample_no_required_owner :
    (validateDocType "Bon de commande 42" "FACTURE").valid = false ∧
    forbiddenFoundIn (pyLower "Bon de commande 42")
      ["devis", "quote", "proforma", "bon de commande", "purchase order"] =
      ["bon de commande"] ∧
    (validateDocType "Bon de commande 42" "FACTURE").detectedType = none ∧
    (TYPE_KEYWORDS.all (fun e => !e.2.1.contains "bon de commande")) = true := by
  decide

/-- Closed witness for C8: the forbidden-term branch applied to a DEVIS
text declared as FACTURE. -/
theorem c8_type_validation_witness :
    (validateDocType "devis joint au dossier" "FACTURE").valid = false :=
  (((c8_type_validation_decision "devis joint au dossier" "FACTURE"
      ["facture", "invoice"]
      ["devis", "quote", "proforma", "bon de commande", "purchase order"] rfl).1)
    (by decide)).1

/-- Assignment then lookup of the same key. -/
theorem pyGet_pySet_self (d : Dict) (k : String) (v : Value) :
    pyGet (pySet d k v) k = some v := by
  induction d with
  | nil => simp [pySet, pyGet]
  | cons kv rest ih =>
      by_cases h : kv.1 = k
      · simp [pySet, pyGet, h]
      · simp [pySet, pyGet, h, ih]

/-- Assignment leaves other keys unchanged. -/
theorem pyGet_pySet_other (d : Dict) (k k' : String) (v : Value) (h : k' ≠ k) :
    pyGet (pySet d k v) k' = pyGet d k' := by
  induction d with
  | nil =>
      simp only [pySet, pyGet]
      rw [if_neg (fun hh => h hh.symm)]
  | cons kv rest ih =>
      by_cases hkv : kv.1 = k
      · simp only [pySet, if_pos hkv, pyGet]
        rw [if_neg (fun hh : k = k' => h hh.symm),
            if_neg (fun hh : kv.1 = k' => h (hkv.symm.trans hh).symm)]
      · simp only [pySet, if_neg hkv, pyGet]
        by_cases hk' : kv.1 = k'
        · rw [if_pos hk', if_pos hk']
        · rw [if_neg hk', if_neg hk', ih]

/-- The overlay loop does not touch a key all of whose regex entries are
metadata or empty. -/
theorem pyGet_overlay_skip (r : Dict) (acc : Dict) (k : String)
    (h : ∀ v, (k, v) ∈ r → (startsUnderscore k || v.isEmptyColl) = true) :
    pyGet (overlayRegex r acc) k = pyGet acc k := by
  induction r generalizing acc with
  | nil => rfl
  | cons kv rest ih =>
      have hstep : overlayRegex (kv :: rest) acc =
          overlayRegex rest
            (if !(startsUnderscore kv.1) && !kv.2.isEmptyColl then pySet acc kv.1 kv.2
             else acc) := rfl
      rw [hstep]
      have htail : ∀ v, (k, v) ∈ rest → (startsUnderscore k || v.isEmptyColl) = true :=
        fun v hv => h v (List.mem_cons_of_mem kv hv)
      by_cases hc : (!(startsUnderscore kv.1) && !kv.2.isEmptyColl) = true
      · rw [if_pos hc, ih _ htail]
        by_cases hk : kv.1 = k
        · exfalso
          have := h kv.2 (hk ▸ List.mem_cons_self kv rest)
          simp only [Bool.and_eq_true, Bool.not_eq_true'] at hc
          rw [← hk] at this
          rcases Bool.or_eq_true_iff.mp this with h1 | h2
          · rw [hc.1] at h1; exact Bool.false_ne_true h1
          · rw [hc.2] at h2; exact Bool.false_ne_true h2
        · exact pyGet_pySet_other acc kv.1 k kv.2 (fun hh => hk hh.symm)
      · rw [if_neg hc, ih _ htail]

/-- The overlay loop writes every non-metadata, non-empty regex field. -/
theorem pyGet_overlay_hit (r : Dict) (acc : Dict) (k : String) (v : Value)
    (hnd : (pyKeys r).Nodup) (hm : (k, v) ∈ r)
    (hk : startsUnderscore k = false) (hv : v.isEmptyColl = false) :
    pyGet (overlayRegex r acc) k = some v := by
  induction r generalizing acc with
  | nil => cases hm
  | cons kv rest ih =>
      have hstep : overlayRegex (kv :: rest) acc =
          overlayRegex rest
            (if !(startsUnderscore kv.1) && !kv.2.isEmptyColl then pySet acc kv.1 kv.2
             else acc) := rfl
      rw [hstep]
      rcases List.mem_cons.mp hm with heq | hm'
      · subst heq
        have hc : (!(startsUnderscore k) && !v.isEmptyColl) = true := by
          rw [hk, hv]; rfl
        rw [if_pos hc]
        have hnd2 : ((k, v).1 :: pyKeys rest).Nodup := hnd
        have hnotin : ∀ v', (k, v') ∈ rest →
            (startsUnderscore k || v'.isEmptyColl) = true := by
          intro v' hv'
          exfalso
          have hkin : k ∈ pyKeys rest := List.mem_map.mpr ⟨(k, v'), hv', rfl⟩
          exact (List.nodup_cons.mp hnd2).1 hkin
        rw [pyGet_overlay_skip rest _ k hnotin]
        exact pyGet_pySet_self acc k v
      · have hnd2 : (kv.1 :: pyKeys rest).Nodup := hnd
        have hnd' : (pyKeys rest).Nodup := (List.nodup_cons.mp hnd2).2
        by_cases hc : (!(startsUnderscore kv.1) && !kv.2.isEmptyColl) = true
        · rw [if_pos hc]; exact ih _ hnd' hm'
        · rw [if_neg hc]; exact ih _ hnd' hm'

/-- Keys that do not start with an underscore differ from the two metadata
keys. -/
theorem ne_meta_of_not_underscore (k : String) (hk : startsUnderscore k = false) :
    k ≠ "_missing_fields" ∧ k ≠ "_extraction_method" := by
  constructor
  · intro h; subst h; exact absurd hk (by decide)
  · intro h; subst h; exact absurd hk (by decide)

/-- Looking up a non-metadata key in the merged dict sees the overlay. -/
theorem pyGet_hybridMerge_of_ne (r l : Dict) (k : String)
    (h1 : k ≠ "_missing_fields") (h2 : k ≠ "_extraction_method") :
    pyGet (hybridMerge r l) k = pyGet (overlayRegex r l) k := by
  unfold hybridMerge
  rw [pyGet_pySet_other _ _ _ _ h2, pyGet_pySet_other _ _ _ _ h1]

/-- C4: for every regex result (with its schema's duplicate-free keys) and
every semantic result, the merge starts from the semantic result and
overwrites it with every non-empty regex field (regex wins on any shared
key); `_missing_fields` is recomputed over the regex result's full schema
after the overlay; and `_extraction_method` is `HYBRID` exactly when the
semantic result is non-empty, `REGEX` otherwise. -/
theorem c4_hybrid_merge_policy (r l : Dict) (hnd : (pyKeys r).Nodup) :
    (∀ k v, (k, v) ∈ r → startsUnderscore k = false → v.isEmptyColl = false →
      pyGet (hybridMerge r l) k = some v) ∧
    (∀ k, k ≠ "_missing_fields" → k ≠ "_extraction_method" →
      (∀ v, (k, v) ∈ r → (startsUnderscore k || v.isEmptyColl) = true) →
      pyGet (hybridMerge r l) k = pyGet l k) ∧
    pyGet (hybridMerge r l) "_missing_fields" =
      some (strListV ((pyKeys r).filter
        (fun k => !(startsUnderscore k) && missingVal (pyGet (hybridMerge r l) k)))) ∧
    pyGet (hybridMerge r l) "_extraction_method" =
      some (Value.str (if l.isEmpty then "REGEX" else "HYBRID")) ∧
    (pyGet (hybridMerge r l) "_extraction_method" = some (Value.str "HYBRID") ↔
      l ≠ []) := by
  have hmeth : pyGet (hybridMerge r l) "_extraction_method" =
      some (Value.str (if l.isEmpty then "REGEX" else "HYBRID")) := by
    unfold hybridMerge
    exact pyGet_pySet_self _ _ _
  refine ⟨?_, ?_, ?_, hmeth, ?_⟩
  · intro k v hm hk hv
    obtain ⟨h1, h2⟩ := ne_meta_of_not_underscore k hk
    rw [pyGet_hybridMerge_of_ne r l k h1 h2]
    exact pyGet_overlay_hit r l k v hnd hm hk hv
  · intro k h1 h2 hall
    rw [pyGet_hybridMerge_of_ne r l k h1 h2]
    exact pyGet_overlay_skip r l k hall
  · have h3 : pyGet (hybridMerge r l) "_missing_fields" =
        some (strListV ((pyKeys r).filter
          (fun k => !(startsUnderscore k) && missingVal (pyGet (overlayRegex r l) k)))) := by
      unfold hybridMerge
      rw [pyGet_pySet_other _ _ _ _ (by decide), pyGet_pySet_self]
    rw [h3]
    congr 2
    apply List.filter_congr
    intro k hkmem
    by_cases hk : startsUnderscore k
    · simp [hk]
    · have hk' : startsUnderscore k = false := by simpa using hk
      obtain ⟨h1, h2⟩ := ne_meta_of_not_underscore k hk'
      rw [pyGet_hybridMerge_of_ne r l k h1 h2]
  · rw [hmeth]
    constructor
    · intro h hcon
      subst hcon
      simp at h
    · intro h
      have : l.isEmpty = false := by
        cases l with
        | nil => exact absurd rfl h
        | cons a t => rfl
      rw [this]
      rfl

/-- Closed witness for C4: merging the blank invoice regex result with an
empty semantic result tags the output `REGEX`. -/
theorem c4_hybrid_merge_policy_witness :
    pyGet (hybridMerge blankInvoiceRegexResult []) "_extraction_method" =
      some (Value.str (if ([] : Dict).isEmpty then "REGEX" else "HYBRID")) :=
  (c4_hybrid_merge_policy blankInvoiceRegexResult [] (by decide)).2.2.2.1

/-- C6: the semantic extractor returns the empty result — never an
exception, the embedding being total like the source's catch-all handler —
whenever the backend call times out, fails with a request error
(unreachable backend), returns a response with no JSON object, or returns
a response whose first JSON object does not decode to an object/dict; and
a merge with an empty semantic result leaves the pipeline on the
regex-only result (`_extraction_method = REGEX`). -/
theorem c6_llm_fails_closed (missing : List String) (raw : String)
    (jsonLoads : String → Option Value) :
    llmExtract missing OllamaCall.timeout jsonLoads = [] ∧
    llmExtract missing OllamaCall.requestError jsonLoads = [] ∧
    (findJsonBlock raw.data = none →
      llmExtract missing (OllamaCall.ok raw) jsonLoads = []) ∧
    (∀ block, findJsonBlock raw.data = some block →
      jsonLoads (String.mk block) = none →
      llmExtract missing (OllamaCall.ok raw) jsonLoads = []) ∧
    (∀ block v, findJsonBlock raw.data = some block →
      jsonLoads (String.mk block) = some v → (∀ kvs, v ≠ Value.vdict kvs) →
      llmExtract missing (OllamaCall.ok raw) jsonLoads = []) ∧
    (∀ r : Dict, pyGet (hybridMerge r []) "_extraction_method" =
      some (Value.str "REGEX")) := by
  refine ⟨by simp [llmExtract, callOllama], by simp [llmExtract, callOllama],
    ?_, ?_, ?_, ?_⟩
  · intro hb
    simp [llmExtract, callOllama, parseJsonResponse, hb]
  · intro block hb hj
    simp [llmExtract, callOllama, parseJsonResponse, hb, hj]
  · intro block v hb hj hnd
    cases v with
    | vdict kvs => exact absurd rfl (hnd kvs)
    | null => simp [llmExtract, callOllama, parseJsonResponse, hb, hj]
    | str s => simp [llmExtract, callOllama, parseJsonResponse, hb, hj]
    | num q => simp [llmExtract, callOllama, parseJsonResponse, hb, hj]
    | vlist vs => simp [llmExtract, callOllama, parseJsonResponse, hb, hj]
  · intro r
    unfold hybridMerge
    exact pyGet_pySet_self _ _ _

/-- Closed witness for C6: a response with no JSON object yields the empty
result. -/
theorem c6_llm_fails_closed_witness :
    llmExtract ["fournisseur"] (OllamaCall.ok "pas de json ici") (fun _ => none) = [] :=
  (c6_llm_fails_closed ["fournisseur"] "pas de json ici" (fun _ => none)).2.2.1
    (by decide)

/-- C1 (code bug): with every invoice field missing after Phase 1 and a
backend response whose JSON object names the HARD-protected field
`montant_ttc`, the merged result carries the LLM's value for that field
(the response cleaner filters only the requested names going out, never
the returned keys) and drops it from the missing list — the protected
field ends up with LLM provenance, contradicting the source's own
documented guarantee. -/
theorem c1_protected_field_injected_by_llm :
    "montant_ttc" ∈ NUMERIC_PROTECTED_FIELDS ∧
    pyGet blankInvoiceRegexResult "montant_ttc" = some Value.null ∧
    llmExtract
      ["numero_facture", "date_facture", "montant_ttc", "montant_ht", "tva_rates",
       "fournisseur", "siret", "adresse_fournisseur", "lignes_articles",
       "conditions_paiement"] cexLLMEnv.call cexLLMEnv.jsonLoads =
      [("montant_ttc", Value.str "999.99")] ∧
    pyGet (hybridExtract true cexLLMEnv blankInvoiceRegexResult) "montant_ttc" =
      some (Value.str "999.99") ∧
    pyGet (hybridExtract true cexLLMEnv blankInvoiceRegexResult) "_missing_fields" =
      some (strListV
        ["numero_facture", "date_facture", "montant_ht", "tva_rates", "fournisseur",
         "siret", "adresse_fournisseur", "lignes_articles", "conditions_paiement"]) ∧
    pyGet (hybridExtract true cexLLMEnv blankInvoiceRegexResult) "_extraction_method" =
      some (Value.str "HYBRID") :=
  ⟨by decide, rfl, rfl, rfl, rfl, rfl⟩

/-- A PORTE 1 rejection carries gate index 1 and only gate-0 metadata. -/
theorem gate1_error_inv (env : PipelineEnv) (r : Resp)
    (h : gate1 env = Except.error r) :
    r.rejectedAtGate = some 1 ∧ ∀ m ∈ r.metadata, gateOfMeta m ≤ 1 := by
  unfold gate1 at h
  split at h
  · split at h
    · injection h with h
      subst h
      refine ⟨rfl, ?_⟩
      intro m hm
      rcases List.mem_singleton.mp hm with rfl
      simp [gateOfMeta]
    · split at h
      · injection h with h
        subst h
        refine ⟨rfl, ?_⟩
        intro m hm
        rcases List.mem_singleton.mp hm with rfl
        simp [gateOfMeta]
      · cases h
  · cases h

/-- A PORTE 2A rejection carries gate index 2 and only gate-≤2 metadata. -/
theorem gate2A_error_inv (env : PipelineEnv) (qs : Option QScore) (r : Resp)
    (h : gate2A env qs = Except.error r) :
    r.rejectedAtGate = some 2 ∧ ∀ m ∈ r.metadata, gateOfMeta m ≤ 2 := by
  have hfm : ∀ e : String, (reject2Extraction env e).rejectedAtGate = some 2 ∧
      ∀ m ∈ (reject2Extraction env e).metadata, gateOfMeta m ≤ 2 := by
    intro e
    refine ⟨rfl, ?_⟩
    intro m hm
    rcases List.mem_singleton.mp hm with rfl
    simp [gateOfMeta]
  unfold gate2A at h
  split at h
  · split at h
    · injection h with h; subst h; exact hfm _
    · cases h
  · split at h
    · injection h with h; subst h; exact hfm _
    · split at h
      · injection h with h; subst h; exact hfm _
      · split at h
        · injection h with h
          subst h
          refine ⟨rfl, ?_⟩
          intro m hm
          rcases List.mem_cons.mp hm with rfl | hm
          · simp [gateOfMeta]
          rcases List.mem_singleton.mp hm with rfl
          simp [gateOfMeta]
        · cases h
  · split at h
    · injection h with h; subst h; exact hfm _
    · split at h
      · injection h with h; subst h; exact hfm _
      · split at h
        · injection h with h
          subst h
          refine ⟨rfl, ?_⟩
          intro m hm
          rcases List.mem_cons.mp hm with rfl | hm
          · simp [gateOfMeta]
          rcases List.mem_singleton.mp hm with rfl
          simp [gateOfMeta]
        · cases h
  · injection h with h; subst h; exact hfm _

/-- A PORTE 2B rejection carries gate index 2 and only gate-≤2 metadata. -/
theorem gate2B_error_inv (env : PipelineEnv) (tr : TextRes) (n : ℕ) (r : Resp)
    (h : gate2B env tr = (n, Except.error r)) :
    r.rejectedAtGate = some 2 ∧ ∀ m ∈ r.metadata, gateOfMeta m ≤ 2 := by
  have hrf : ∀ (tl : ℕ) (e : String),
      (reject2RetryFailed env tl e).rejectedAtGate = some 2 ∧
      ∀ m ∈ (reject2RetryFailed env tl e).metadata, gateOfMeta m ≤ 2 := by
    intro tl e
    refine ⟨rfl, ?_⟩
    intro m hm
    rcases List.mem_singleton.mp hm with rfl
    simp [gateOfMeta]
  have hss : ∀ (t : String) (len : ℕ),
      (reject2StillShort env t len).rejectedAtGate = some 2 ∧
      ∀ m ∈ (reject2StillShort env t len).metadata, gateOfMeta m ≤ 2 := by
    intro t len
    refine ⟨rfl, ?_⟩
    intro m hm
    rcases List.mem_cons.mp hm with rfl | hm
    · simp [gateOfMeta]
    rcases List.mem_cons.mp hm with rfl | hm
    · simp [gateOfMeta]
    rcases List.mem_singleton.mp hm with rfl
    simp [gateOfMeta]
  have hstep1 : ∀ (tl n' : ℕ) (r' : Resp),
      substantialityRetry env tl tr = (n', Except.error r') →
      r'.rejectedAtGate = some 2 ∧ ∀ m ∈ r'.metadata, gateOfMeta m ≤ 2 := by
    intro tl n' r' h'
    unfold substantialityRetry at h'
    split at h'
    · split at h'
      · injection h' with h1 h2
        injection h2 with h2
        rw [← h2]
        exact hrf _ _
      · split at h'
        · injection h' with h1 h2
          injection h2 with h2
          rw [← h2]
          exact hrf _ _
        · injection h' with h1 h2
          cases h2
    · injection h' with h1 h2
      cases h2
  simp only [gate2B] at h
  split at h
  · next r1 resp heq =>
      injection h with h1 h2
      injection h2 with h2
      subst h2
      exact hstep1 _ _ _ heq
  · next r1 tr1 heq =>
      split at h
      · injection h with h1 h2
        injection h2 with h2
        subst h2
        exact hss _ _
      · injection h with h1 h2
        cases h2

/-- Every gate recorded before PORTE 2 has index at most 1. -/
theorem g01_le (env : PipelineEnv) : ∀ g ∈ g01 env, g ≤ 1 := by
  intro g hg
  unfold g01 at hg
  split at hg <;> simp at hg
  · rcases hg with rfl | rfl <;> omega
  · omega

/-- C3: whenever a run terminates with `rejected_at_gate = k`, no gate with
index greater than `k` was entered, and every metadata entry of the
returned outcome was accumulated by a gate of index at most `k`. -/
theorem c3_gate_monotonicity (env : PipelineEnv) (dt : String) (k : ℕ)
    (h : (uploadDocument env dt).resp.rejectedAtGate = some k) :
    (∀ g ∈ (uploadDocument env dt).gates, g ≤ k) ∧
    (∀ m ∈ (uploadDocument env dt).resp.metadata, gateOfMeta m ≤ k) := by
  have key : ∀ t : Trace, uploadDocument env dt = t →
      ∀ k' : ℕ, t.resp.rejectedAtGate = some k' →
      (∀ g ∈ t.gates, g ≤ k') ∧ (∀ m ∈ t.resp.metadata, gateOfMeta m ≤ k') := by
    intro t ht k' hk'
    simp only [uploadDocument] at ht
    split at ht
    · subst ht
      simp only [resp0] at hk'
      injection hk' with hk'
      subst hk'
      refine ⟨?_, ?_⟩
      · intro g hg
        rcases List.mem_singleton.mp hg with rfl
        omega
      · intro m hm
        rcases List.mem_singleton.mp hm with rfl
        simp [gateOfMeta]
    · split at ht
      · next r heq =>
          subst ht
          obtain ⟨hg1, hm1⟩ := gate1_error_inv env r heq
          rw [hg1] at hk'
          injection hk' with hk'
          subst hk'
          refine ⟨?_, hm1⟩
          intro g hg
          simp at hg
          rcases hg with rfl | rfl <;> omega
      · next qs heq =>
          split at ht
          · next r heq2 =>
              subst ht
              obtain ⟨hg2, hm2⟩ := gate2A_error_inv env qs r heq2
              rw [hg2] at hk'
              injection hk' with hk'
              subst hk'
              refine ⟨?_, hm2⟩
              intro g hg
              rcases List.mem_append.mp hg with hg | hg
              · exact le_trans (g01_le env g hg) (by omega)
              · rcases List.mem_singleton.mp hg with rfl
                omega
          · next tr heq2 =>
              split at ht
              · next n r heq3 =>
                  subst ht
                  obtain ⟨hg3, hm3⟩ := gate2B_error_inv env tr n r heq3
                  rw [hg3] at hk'
                  injection hk' with hk'
                  subst hk'
                  refine ⟨?_, hm3⟩
                  intro g hg
                  rcases List.mem_append.mp hg with hg | hg
                  · exact le_trans (g01_le env g hg) (by omega)
                  · rcases List.mem_singleton.mp hg with rfl
                    omega
              · next n tr2 heq3 =>
                  by_cases hv : (!(validateDocType tr2.text dt).valid) = true
                  · rw [if_pos hv] at ht
                    subst ht
                    simp only [reject3TypeMismatch] at hk'
                    injection hk' with hk'
                    subst hk'
                    refine ⟨?_, ?_⟩
                    · intro g hg
                      rcases List.mem_append.mp hg with hg | hg
                      · exact le_trans (g01_le env g hg) (by omega)
                      · simp at hg
                        rcases hg with rfl | rfl <;> omega
                    · intro m hm
                      rcases List.mem_cons.mp hm with rfl | hm
                      · simp [gateOfMeta]
                      rcases List.mem_singleton.mp hm with rfl
                      simp [gateOfMeta]
                  · rw [if_neg hv] at ht
                    split at ht
                    · subst ht
                      simp only [reject3Unknown] at hk'
                      injection hk' with hk'
                      subst hk'
                      refine ⟨?_, ?_⟩
                      · intro g hg
                        rcases List.mem_append.mp hg with hg | hg
                        · exact le_trans (g01_le env g hg) (by omega)
                        · simp at hg
                          rcases hg with rfl | rfl <;> omega
                      · intro m hm
                        rcases List.mem_singleton.mp hm with rfl
                        simp [gateOfMeta]
                    · next spec heq4 =>
                        by_cases hs :
                            (processAgent spec env.agentOutcome).success = true
                        · rw [if_pos hs] at ht
                          subst ht
                          simp only [respSuccess] at hk'
                          cases hk'
                        · rw [if_neg hs] at ht
                          subst ht
                          simp only [reject5] at hk'
                          injection hk' with hk'
                          subst hk'
                          refine ⟨?_, ?_⟩
                          · intro g hg
                            rcases List.mem_append.mp hg with hg | hg
                            · exact le_trans (g01_le env g hg) (by omega)
                            · simp at hg
                              rcases hg with rfl | rfl | rfl | rfl <;> omega
                          · intro m hm
                            rcases List.mem_cons.mp hm with rfl | hm
                            · simp [gateOfMeta]
                            rcases List.mem_cons.mp hm with rfl | hm
                            · simp [gateOfMeta]
                            rcases List.mem_singleton.mp hm with rfl
                            simp [gateOfMeta]
  exact key (uploadDocument env dt) rfl k h

/-- Closed witness for C3: a run rejected at PORTE 0 has all entered gates
and all metadata attributed to gate 0. -/
theorem c3_gate_monotonicity_witness :
    (∀ g ∈ (uploadDocument gate0Env "FACTURE").gates, g ≤ 0) ∧
    (∀ m ∈ (uploadDocument gate0Env "FACTURE").resp.metadata, gateOfMeta m ≤ 0) :=
  c3_gate_monotonicity gate0Env "FACTURE" 0 rfl

/-- C5 (code bug): on a native-text document with 29 characters of
extracted text containing the watermark token "demo", the pipeline makes
TWO rasterize+OCR attempts — the substantiality retry, then the watermark
branch repeats the same path because it re-tests the stale pre-retry
length and carries no already-attempted guard — before rejecting at gate 2
with `TEXT_EXTRACTION_FAILED` and the short text preserved in metadata. -/
theorem c5_two_retries_then_reject :
    (uploadDocument c5Env "FACTURE").retries = 2 ∧
    (uploadDocument c5Env "FACTURE").resp.status = PStatus.rejected ∧
    (uploadDocument c5Env "FACTURE").resp.rejectedAtGate = some 2 ∧
    (uploadDocument c5Env "FACTURE").resp.rejectionReason =
      some "TEXT_EXTRACTION_FAILED" ∧
    (uploadDocument c5Env "FACTURE").resp.metadata =
      [MetaItem.fileMeta Value.null, MetaItem.extractedText c5Text,
       MetaItem.textLength 29] :=
  ⟨rfl, rfl, rfl, rfl, rfl⟩

end Smalter
